import Mathlib

/-!
Verification model of `etl.py`, a single-file Spark ETL that reads song
metadata and user-activity logs from object storage and writes five
dimensional tables (songs, artists, users, time, songplays) as partitioned
parquet files.

The embedding is shallow: DataFrames become Lean lists of records, SQL
`SELECT DISTINCT ... WHERE ...` becomes `filter`/`map`/`dedup`, the inner
join becomes `bind`/`filter`, and each `write.parquet(..., mode="overwrite")`
becomes an overwrite of one field of an explicit `Storage` state that also
records the partition columns, write mode and destination path. Nullable
JSON columns are `Option` values with SQL null semantics (`IS NOT NULL`
filters, null-rejecting equality in the join predicate). The epoch
millisecond field `ts` is a `Nat`; the Python string wrappers `str(...)` in
the two udfs are dropped and the numeric content of the columns is kept.
The `timestamp` column produced by the
`get_timestamp` udf is a StringType digit string, so the time-table queries
`hour(timestamp) ... weekday(timestamp)` go through Spark's implicit
string→timestamp cast; that cast is embedded by `castTimestampColumn`
(a bare digit run is accepted only as a 4-6 digit year, otherwise the cast
yields NULL), and the six calendar columns of the time table are therefore
`Option` values. The calendar field extractors themselves are
proleptic-Gregorian (`weekday` is Monday = 0, `weekofyear` is the ISO-8601
week number, matching Spark's documentation). The `year(a.timestamp)` and
`month(a.timestamp)` columns of the songplays projection are kept as the
idealized calendar values of the epoch-second number (in the program the
same failed cast also makes them NULL; nothing proved about songplays
depends on these two fields' values). Floating-point
payload columns that the script only carries around and never computes with
(`duration`, `artist_latitude`, `artist_longitude`) are embedded as opaque
integers.
-/

namespace Etl

/-- A raw song record as read from the song JSON dataset
(schema used by `process_song_data`). -/
structure SongRecord where
  song_id : Option String
  title : Option String
  artist_id : Option String
  artist_name : Option String
  artist_location : Option String
  artist_latitude : Option Int
  artist_longitude : Option Int
  year : Int
  duration : Int
deriving DecidableEq, Repr

/-- A raw event record as read from the log JSON dataset
(schema used by `process_log_data`). -/
structure EventRecord where
  userId : Option String
  firstName : Option String
  lastName : Option String
  gender : Option String
  level : Option String
  page : Option String
  song : Option String
  location : Option String
  userAgent : Option String
  sessionId : Int
  ts : Nat
deriving DecidableEq, Repr

/-! ## Calendar arithmetic

Embedding of the Spark SQL functions `hour`, `day`, `weekofyear`, `month`,
`year`, `weekday` applied to the epoch-second `timestamp` column, via the
standard civil-from-days / days-from-civil algorithms. -/

/-- Gregorian leap-year test. -/
def isLeapYear (y : Nat) : Bool :=
  y % 4 == 0 && (y % 100 != 0 || y % 400 == 0)

/-- Convert a count of days since 1970-01-01 to a civil date
`(year, month, day)` (valid for nonnegative day counts). -/
def civilOfDays (days : Nat) : Nat × Nat × Nat :=
  let z := days + 719468
  let era := z / 146097
  let doe := z % 146097
  let yoe := (doe - doe / 1460 + doe / 36524 - doe / 146097) / 365
  let y := yoe + era * 400
  let doy := doe - (365 * yoe + yoe / 4 - yoe / 100)
  let mp := (5 * doy + 2) / 153
  let d := doy - (153 * mp + 2) / 5 + 1
  let m := if mp < 10 then mp + 3 else mp - 9
  (if m ≤ 2 then y + 1 else y, m, d)

/-- Convert a civil date `(y, m, d)` with `y ≥ 1970` to its count of days
since 1970-01-01. -/
def daysOfCivil (y m d : Nat) : Nat :=
  let y' := if m ≤ 2 then y - 1 else y
  let era := y' / 400
  let yoe := y' - era * 400
  let doy := (153 * (if m > 2 then m - 3 else m + 9) + 2) / 5 + d - 1
  let doe := yoe * 365 + yoe / 4 - yoe / 100 + doy
  era * 146097 + doe - 719468

/-- Spark `hour` of an epoch-second value. -/
def hourOfEpoch (s : Nat) : Nat := s % 86400 / 3600

/-- Spark `day` (day of month) of an epoch-second value. -/
def dayOfEpoch (s : Nat) : Nat := (civilOfDays (s / 86400)).2.2

/-- Spark `month` of an epoch-second value. -/
def monthOfEpoch (s : Nat) : Nat := (civilOfDays (s / 86400)).2.1

/-- Spark `year` of an epoch-second value. -/
def yearOfEpoch (s : Nat) : Nat := (civilOfDays (s / 86400)).1

/-- Spark `weekday` of an epoch-second value: 0 = Monday … 6 = Sunday
(1970-01-01 was a Thursday, hence the offset 3). -/
def weekdayOfEpoch (s : Nat) : Nat := (s / 86400 + 3) % 7

/-- Number of ISO-8601 weeks in year `y` (52 or 53). -/
def weeksInYear (y : Nat) : Nat :=
  let jan1wd := (daysOfCivil y 1 1 + 3) % 7 + 1
  if jan1wd = 4 || (isLeapYear y && jan1wd = 3) then 53 else 52

/-- Spark `weekofyear` of an epoch-second value (ISO-8601 week number). -/
def weekOfEpoch (s : Nat) : Nat :=
  let days := s / 86400
  let c := civilOfDays days
  let y := c.1
  let doy := days - daysOfCivil y 1 1 + 1
  let wd := (days + 3) % 7 + 1
  let w := (doy + 10 - wd) / 7
  if w = 0 then weeksInYear (y - 1)
  else if w = 53 && weeksInYear y = 52 then 1 else w

/-- Number of days of the months before month `m` in year `y`. -/
def cumDaysBeforeMonth (y m : Nat) : Nat :=
  let feb := if isLeapYear y then 29 else 28
  ([31, feb, 31, 30, 31, 30, 31, 31, 30, 31, 30].take (m - 1)).sum

/-- One-based day of year of the civil date `(y, m, d)`. -/
def dayOfYear (y m d : Nat) : Nat := cumDaysBeforeMonth y m + d

/-- Day of week of the civil date `(y, m, d)` by Zeller's congruence,
with 0 = Saturday, 1 = Sunday, …, 6 = Friday. -/
def dayOfWeekSat0 (y m d : Nat) : Nat :=
  let y' := if m ≤ 2 then y - 1 else y
  let m' := if m ≤ 2 then m + 12 else m
  (d + 13 * (m' + 1) / 5 + y' % 100 + y' % 100 / 4 + y' / 100 / 4 + 5 * (y' / 100)) % 7

/-- Spark `weekday` of the civil date `(y, m, d)`: 0 = Monday … 6 = Sunday. -/
def weekdayOfCivil (y m d : Nat) : Nat := (dayOfWeekSat0 y m d + 5) % 7

/-- Number of ISO-8601 weeks in year `y` (52 or 53), from its civil date. -/
def weeksInYearCivil (y : Nat) : Nat :=
  let jan1wd := weekdayOfCivil y 1 1 + 1
  if jan1wd = 4 || (isLeapYear y && jan1wd = 3) then 53 else 52

/-- Spark `weekofyear` (ISO-8601 week number) of the civil date `(y, m, d)`. -/
def isoWeekOfCivil (y m d : Nat) : Nat :=
  let doy := dayOfYear y m d
  let wd := weekdayOfCivil y m d + 1
  let w := (doy + 10 - wd) / 7
  if w = 0 then weeksInYearCivil (y - 1)
  else if w = 53 && weeksInYearCivil y = 52 then 1 else w

/-! ## The two udfs of `process_log_data` -/

/-- The udf `get_timestamp = udf(lambda x: str(int(int(x)/1000)))`:
the `timestamp` column holds the epoch-millisecond `ts` divided by 1000
(an epoch-second value; the surrounding `str` is dropped). -/
def get_timestamp (ts : Nat) : Nat := ts / 1000

/-- The udf `get_datetime = udf(lambda x: str(datetime.fromtimestamp(int(x) / 1000.0)))`:
the `datetime` column denotes the instant `ts / 1000.0` seconds after the
epoch, embedded as the pair (whole epoch seconds, leftover milliseconds). -/
def get_datetime (ts : Nat) : Nat × Nat := (ts / 1000, ts % 1000)

/-- A parsed timestamp value as Spark's string parser represents it:
its civil field segments. -/
structure CivilTimestamp where
  year : Nat
  month : Nat
  day : Nat
  hour : Nat
  minute : Nat
  second : Nat
deriving DecidableEq, Repr

/-- Spark's implicit string→timestamp cast applied to the `timestamp`
column, whose content is always the decimal digit string `str(n)` for the
epoch-second number `n` that `get_timestamp` computed. Spark's
`stringToTimestamp` accepts a separator-free digit run only as a year
segment — exactly 4 digits in the Spark 2.x parser, up to 6 in Spark 3 —
giving midnight January 1 of that year; a longer digit run (every realistic
ten-digit epoch-second string) is not a parseable timestamp literal and the
cast yields NULL, embedded here as `none`. -/
def castTimestampColumn (n : Nat) : Option CivilTimestamp :=
  if 1000 ≤ n ∧ n ≤ 999999 then some ⟨n, 1, 1, 0, 0, 0⟩ else none

/-! ## Projected table rows -/

/-- A row of the songs table:
`SELECT distinct song_id, title, artist_id, year, duration`. -/
structure SongRow where
  song_id : Option String
  title : Option String
  artist_id : Option String
  year : Int
  duration : Int
deriving DecidableEq, Repr

/-- A row of the artists table: `SELECT distinct artist_id, artist_name,
artist_location, artist_latitude, artist_longitude`. -/
structure ArtistRow where
  artist_id : Option String
  artist_name : Option String
  artist_location : Option String
  artist_latitude : Option Int
  artist_longitude : Option Int
deriving DecidableEq, Repr

/-- A row of the users table:
`SELECT DISTINCT userId, firstName, lastName, gender`. -/
structure UserRow where
  userId : Option String
  firstName : Option String
  lastName : Option String
  gender : Option String
deriving DecidableEq, Repr

/-- A row of the time table: `SELECT distinct timestamp as start_time,
hour(..), day(..), weekofyear(..), month(..), year(..), weekday(..)`.
The six calendar columns are nullable: each applies a Spark calendar
function to the string `timestamp` column through the implicit
string→timestamp cast, which can (and on realistic data always does)
yield NULL. -/
structure TimeRow where
  start_time : Nat
  hour : Option Nat
  day : Option Nat
  week : Option Nat
  month : Option Nat
  year : Option Nat
  weekday : Option Nat
deriving DecidableEq, Repr

/-- A row of the songplays fact table: `SELECT a.timestamp as start_time,
a.userId, a.level, b.song_id, b.artist_id, a.sessionId, a.location,
a.userAgent, year(a.timestamp) as year, month(a.timestamp) as month`. -/
structure SongplayRow where
  start_time : Nat
  userId : Option String
  level : Option String
  song_id : Option String
  artist_id : Option String
  sessionId : Int
  location : Option String
  userAgent : Option String
  year : Nat
  month : Nat
deriving DecidableEq, Repr

/-- Projection of a song record to a songs-table row. -/
def projSongRow (r : SongRecord) : SongRow :=
  ⟨r.song_id, r.title, r.artist_id, r.year, r.duration⟩

/-- Projection of a song record to an artists-table row. -/
def projArtistRow (r : SongRecord) : ArtistRow :=
  ⟨r.artist_id, r.artist_name, r.artist_location, r.artist_latitude, r.artist_longitude⟩

/-- Projection of an event record to a users-table row. -/
def projUserRow (e : EventRecord) : UserRow :=
  ⟨e.userId, e.firstName, e.lastName, e.gender⟩

/-- The time-table row derived from one filtered event: `start_time` is the
`timestamp` column (numeric content `ts / 1000`), and each of the six
calendar columns applies a Spark calendar function to that same digit-string
column through the implicit string→timestamp cast (`castTimestampColumn`),
so each is NULL exactly when the cast fails. -/
def timeRowOf (e : EventRecord) : TimeRow :=
  let t? := castTimestampColumn (get_timestamp e.ts)
  { start_time := get_timestamp e.ts
    hour := t?.map (fun t => t.hour)
    day := t?.map (fun t => t.day)
    week := t?.map (fun t => isoWeekOfCivil t.year t.month t.day)
    month := t?.map (fun t => t.month)
    year := t?.map (fun t => t.year)
    weekday := t?.map (fun t => weekdayOfCivil t.year t.month t.day) }

/-- The songplays-table row produced by joining event `a` with songs row
`b`. The `year`/`month` fields stand for `year(a.timestamp)` and
`month(a.timestamp)` and are kept as the idealized calendar values of the
epoch-second number (in the program the failed string→timestamp cast makes
both NULL; no claim about songplays depends on these two values). -/
def songplayOf (a : EventRecord) (b : SongRow) : SongplayRow :=
  { start_time := get_timestamp a.ts
    userId := a.userId
    level := a.level
    song_id := b.song_id
    artist_id := b.artist_id
    sessionId := a.sessionId
    location := a.location
    userAgent := a.userAgent
    year := yearOfEpoch (get_timestamp a.ts)
    month := monthOfEpoch (get_timestamp a.ts) }

/-- The join predicate `a.song = b.title` with SQL null semantics:
a null on either side never matches. -/
def titleMatch (a : EventRecord) (b : SongRow) : Bool :=
  match a.song, b.title with
  | some s, some t => s == t
  | _, _ => false

/-! ## SQL queries as list transformations -/

/-- `WHERE page = 'NextSong'` over the staging events. -/
def filterNextSong (evts : List EventRecord) : List EventRecord :=
  evts.filter (fun e => e.page == some "NextSong")

/-- The songs table: distinct (song_id, title, artist_id, year, duration)
over records with non-null song_id. -/
def songsTable (sngs : List SongRecord) : List SongRow :=
  (((sngs.filter (fun r => r.song_id.isSome)).map projSongRow)).dedup

/-- The artists table: distinct (artist_id, artist_name, artist_location,
artist_latitude, artist_longitude) over records with non-null artist_id. -/
def artistsTable (sngs : List SongRecord) : List ArtistRow :=
  (((sngs.filter (fun r => r.artist_id.isSome)).map projArtistRow)).dedup

/-- The users table: distinct (userId, firstName, lastName, gender) over the
page-filtered staging events with non-null userId. -/
def usersTable (evts : List EventRecord) : List UserRow :=
  ((((filterNextSong evts).filter (fun e => e.userId.isSome)).map projUserRow)).dedup

/-- The time table: distinct derived calendar rows over the page-filtered
staging events. -/
def timeTable (evts : List EventRecord) : List TimeRow :=
  (((filterNextSong evts).map timeRowOf)).dedup

/-- The songplays rows: inner join of the (already page-filtered) staging
events with the re-read songs rows on `a.song = b.title`, projected by
`songplayOf`. -/
def songplaysRows (filtered : List EventRecord) (songRows : List SongRow) :
    List SongplayRow :=
  filtered.flatMap (fun a => (songRows.filter (fun b => titleMatch a b)).map (songplayOf a))

/-! ## Storage and writes -/

/-- One parquet table write: the rows, the `partitionBy` columns, the write
mode and the destination path. -/
structure TableWrite (α : Type) where
  rows : List α
  partitionCols : List String
  mode : String
  path : String
deriving DecidableEq, Repr

/-- The destination storage: one optional materialized write per table
(`none` = nothing has been written at that destination yet). -/
structure Storage where
  songs : Option (TableWrite SongRow)
  artists : Option (TableWrite ArtistRow)
  users : Option (TableWrite UserRow)
  time : Option (TableWrite TimeRow)
  songplays : Option (TableWrite SongplayRow)
deriving DecidableEq, Repr

/-- Completely empty destination storage. -/
def emptyStorage : Storage := ⟨none, none, none, none, none⟩

/-- `input_data = "s3a://udacity-dend/"` in `main`. -/
def input_data : String := "s3a://udacity-dend/"

/-- `output_data = "s3a://rahul-data-lake"` in `main`. -/
def output_data : String := "s3a://rahul-data-lake"

/-! ## Reading the JSON datasets through their glob patterns -/

/-- Split a character list at `/` separators. -/
def segsAux : List Char → List Char → List (List Char)
  | [], acc => [acc.reverse]
  | c :: rest, acc =>
      if c = '/' then acc.reverse :: segsAux rest [] else segsAux rest (c :: acc)

/-- Does a character list end with `.json`? -/
def endsWithJson (cs : List Char) : Bool :=
  match cs.reverse with
  | 'n' :: 'o' :: 's' :: 'j' :: '.' :: _ => true
  | _ => false

/-- Does a path (relative to the input location) match the glob
`song-data/A/A/A/*.json` used by `process_song_data`? -/
def songDataGlobMatch (p : String) : Bool :=
  match segsAux p.data [] with
  | [s0, s1, s2, s3, f] =>
      s0 == "song-data".data && s1 == ['A'] && s2 == ['A'] && s3 == ['A']
        && endsWithJson f
  | _ => false

/-- Does a path (relative to the input location) match the glob
`log_data/*/*/*.json` used by `process_log_data`? -/
def logDataGlobMatch (p : String) : Bool :=
  match segsAux p.data [] with
  | [s0, _s1, _s2, f] => s0 == "log_data".data && endsWithJson f
  | _ => false

/-- A JSON file of the song dataset: its path relative to the input
location, and the records it holds. -/
structure SongFile where
  path : String
  records : List SongRecord
deriving DecidableEq, Repr

/-- A JSON file of the log dataset. -/
structure LogFile where
  path : String
  records : List EventRecord
deriving DecidableEq, Repr

/-- `spark.read.json(os.path.join(input_data, "song-data/A/A/A/*.json"))`:
the records of exactly the files matched by the glob. -/
def readSongData (files : List SongFile) : List SongRecord :=
  (files.filter (fun f => songDataGlobMatch f.path)).flatMap (fun f => f.records)

/-- `spark.read.json(input_data + "log_data/*/*/*.json")`:
the records of exactly the files matched by the glob. -/
def readLogData (files : List LogFile) : List EventRecord :=
  (files.filter (fun f => logDataGlobMatch f.path)).flatMap (fun f => f.records)

/-! ## The two stages and the driver -/

/-- `process_song_data`: read the song dataset through its glob, then
overwrite-write the songs table (partitioned by year, artist_id) and the
artists table (unpartitioned) at their destinations. -/
def process_song_data (files : List SongFile) (st : Storage) : Storage :=
  let sngs := readSongData files
  { st with
    songs := some
      { rows := songsTable sngs
        partitionCols := ["year", "artist_id"]
        mode := "overwrite"
        path := output_data ++ "/songs/songs.parquet" }
    artists := some
      { rows := artistsTable sngs
        partitionCols := []
        mode := "overwrite"
        path := output_data ++ "/artists/artists.parquet" } }

/-- `process_log_data`: read the log dataset through its glob, filter to
`page = 'NextSong'`, overwrite-write the users and time tables, then re-read
the songs table from its destination (`spark.read.parquet`), join and
overwrite-write the songplays table (partitioned by year, month). Returns
`none` when the songs parquet destination holds nothing (the read raises);
in the driver this branch is unreachable, since `process_song_data` has
always written the songs table first. -/
def process_log_data (files : List LogFile) (st : Storage) : Option Storage :=
  let evts := readLogData files
  let filtered := filterNextSong evts
  let st1 : Storage :=
    { st with
      users := some
        { rows := usersTable evts
          partitionCols := []
          mode := "overwrite"
          path := output_data ++ "/users/users.parquet" }
      time := some
        { rows := timeTable evts
          partitionCols := ["year", "month"]
          mode := "overwrite"
          path := output_data ++ "/time/time.parquet" } }
  match st1.songs with
  | none => none
  | some songWrite =>
      some
        { st1 with
          songplays := some
            { rows := songplaysRows filtered songWrite.rows
              partitionCols := ["year", "month"]
              mode := "overwrite"
              path := output_data ++ "/songplays/songplays.parquet" } }

/-- `main`: process the song data, then the log data, against the same
storage. -/
def runPipeline (files : List SongFile) (lfiles : List LogFile)
    (st : Storage) : Option Storage :=
  process_log_data lfiles (process_song_data files st)

/-- The driver with its two fallible dataset reads made explicit: `none`
for an input means that read raises. The result pairs the storage as left
behind with `some` error message when a stage failed (uncaught, aborting
the run) or `none` on success. -/
def runPipelineF (songsIn : Option (List SongFile))
    (logsIn : Option (List LogFile)) (st : Storage) :
    Storage × Option String :=
  match songsIn with
  | none => (st, some "process_song_data: read failed")
  | some files =>
      let st1 := process_song_data files st
      match logsIn with
      | none => (st1, some "process_log_data: read failed")
      | some lfiles =>
          match process_log_data lfiles st1 with
          | none => (st1, some "process_log_data: songs parquet read failed")
          | some st2 => (st2, none)

/-- A concrete NextSong event used to instantiate concrete-input theorems. -/
def c7_event : EventRecord :=
  ⟨some "7", none, none, none, some "free", some "NextSong", some "Foo",
    none, none, 1, 1543537327796⟩

/-- A concrete songs-table row used to instantiate concrete-input theorems. -/
def c7_song : SongRow := ⟨some "S1", some "Foo", some "A1", 2000, 200⟩

/-- A concrete log dataset holding one NextSong event with
ts = 1543537327796, the failing input for the time-table calendar claim. -/
def c2_logs : List LogFile := [⟨"log_data/2018/11/e.json", [c7_event]⟩]

/-! ## Theorems -/

/-- Reading the song dataset ignores files outside its glob pattern. -/
lemma readSongData_filter_glob (files : List SongFile) :
    readSongData (files.filter (fun f => songDataGlobMatch f.path))
      = readSongData files := by
  unfold readSongData
  rw [List.filter_filter]
  simp

/-- Membership in the read song records, traced back to a glob-matched file. -/
lemma mem_readSongData (files : List SongFile) (r : SongRecord) :
    r ∈ readSongData files ↔
      ∃ f, f ∈ files ∧ songDataGlobMatch f.path = true ∧ r ∈ f.records := by
  simp [readSongData, List.mem_flatMap, List.mem_filter, and_assoc]

/-- C3: the songs table written by `process_song_data` holds exactly the
distinct tuples (song_id, title, artist_id, year, duration) over the read
song records with non-null song_id — no row derived from a null-song_id
record — and the write is overwrite-mode, partitioned by (year, artist_id). -/
theorem songs_table_distinct_nonnull_partitioned
    (files : List SongFile) (st : Storage) :
    ∃ w, (process_song_data files st).songs = some w ∧
      w.partitionCols = ["year", "artist_id"] ∧
      w.mode = "overwrite" ∧
      w.rows.Nodup ∧
      ∀ t, t ∈ w.rows ↔
        ∃ r, r ∈ readSongData files ∧ r.song_id ≠ none ∧ projSongRow r = t := by
  refine ⟨_, rfl, rfl, rfl, List.nodup_dedup _, fun t => ?_⟩
  unfold songsTable
  rw [List.mem_dedup, List.mem_map]
  constructor
  · rintro ⟨r, hr, rfl⟩
    rw [List.mem_filter] at hr
    exact ⟨r, hr.1, by simpa [Option.isSome_iff_ne_none] using hr.2, rfl⟩
  · rintro ⟨r, hr, hnn, rfl⟩
    exact ⟨r, List.mem_filter.mpr ⟨hr, by simpa [Option.isSome_iff_ne_none] using hnn⟩, rfl⟩

/-- C6: the artists table written by `process_song_data` holds exactly the
distinct tuples (artist_id, artist_name, artist_location, artist_latitude,
artist_longitude) over the read song records with non-null artist_id, and
its write carries no partitioning columns. -/
theorem artists_table_distinct_nonnull_unpartitioned
    (files : List SongFile) (st : Storage) :
    ∃ w, (process_song_data files st).artists = some w ∧
      w.partitionCols = [] ∧
      w.mode = "overwrite" ∧
      w.rows.Nodup ∧
      ∀ t, t ∈ w.rows ↔
        ∃ r, r ∈ readSongData files ∧ r.artist_id ≠ none ∧ projArtistRow r = t := by
  refine ⟨_, rfl, rfl, rfl, List.nodup_dedup _, fun t => ?_⟩
  unfold artistsTable
  rw [List.mem_dedup, List.mem_map]
  constructor
  · rintro ⟨r, hr, rfl⟩
    rw [List.mem_filter] at hr
    exact ⟨r, hr.1, by simpa [Option.isSome_iff_ne_none] using hr.2, rfl⟩
  · rintro ⟨r, hr, hnn, rfl⟩
    exact ⟨r, List.mem_filter.mpr ⟨hr, by simpa [Option.isSome_iff_ne_none] using hnn⟩, rfl⟩

/-- C5: the users table written by the pipeline is duplicate-free — at most
one row per distinct (userId, firstName, lastName, gender) tuple — and its
rows are exactly the tuples of page-filtered events with non-null userId
(in particular no row has a null userId). -/
theorem users_table_nodup_nonnull_from_filtered
    (files : List SongFile) (lfiles : List LogFile) (st : Storage) :
    ∃ st' w, runPipeline files lfiles st = some st' ∧ st'.users = some w ∧
      w.rows.Nodup ∧
      ∀ u, u ∈ w.rows ↔
        ∃ e, e ∈ readLogData lfiles ∧ e.page = some "NextSong" ∧
          e.userId ≠ none ∧ projUserRow e = u := by
  refine ⟨_, _, rfl, rfl, List.nodup_dedup _, fun u => ?_⟩
  unfold usersTable filterNextSong
  rw [List.mem_dedup, List.mem_map]
  constructor
  · rintro ⟨e, he, rfl⟩
    rw [List.mem_filter] at he
    obtain ⟨he', hid⟩ := he
    rw [List.mem_filter] at he'
    refine ⟨e, he'.1, by simpa using he'.2, by simpa [Option.isSome_iff_ne_none] using hid, rfl⟩
  · rintro ⟨e, he, hpg, hid, rfl⟩
    refine ⟨e, List.mem_filter.mpr ⟨List.mem_filter.mpr ⟨he, by simpa using hpg⟩,
      by simpa [Option.isSome_iff_ne_none] using hid⟩, rfl⟩

/-- C2 (code evaluated at the failing input): for the NextSong event with
ts = 1543537327796 the pipeline's time table holds one row whose
start_time column carries the ten-digit epoch-second number 1543537327
but whose hour, day, week, month, year and weekday columns are all NULL —
Spark's implicit string→timestamp cast of the digit-string timestamp
column fails — instead of the calendar fields of start_time the claim
requires, which would be hour 0, day 30, week 48, month 11, year 2018,
weekday 4 (Friday). -/
theorem time_table_calendar_columns_null_at_failing_input :
    (∃ st' w, runPipeline [] c2_logs emptyStorage = some st' ∧
      st'.time = some w ∧
      w.rows = [{ start_time := 1543537327,
                  hour := none, day := none, week := none,
                  month := none, year := none, weekday := none }] ∧
      w.rows = [timeRowOf c7_event]) ∧
    castTimestampColumn 1543537327 = none ∧
    get_timestamp 1543537327796 = 1543537327 ∧
    hourOfEpoch 1543537327 = 0 ∧
    dayOfEpoch 1543537327 = 30 ∧
    weekOfEpoch 1543537327 = 48 ∧
    monthOfEpoch 1543537327 = 11 ∧
    yearOfEpoch 1543537327 = 2018 ∧
    weekdayOfEpoch 1543537327 = 4 := by
  exact ⟨⟨_, _, rfl, rfl, by decide, by decide⟩,
    by decide, by decide, by decide, by decide, by decide, by decide,
    by decide, by decide⟩

/-- C1: the songplays table written by the pipeline equals the inner join of
the page-filtered events with the songs rows re-read from the songs
destination (which hold what the song stage wrote there), matched on
`event.song = song.title` and projected by `songplayOf`; consequently each
filtered event contributes exactly as many songplays rows as it has matching
song rows (zero when no title matches). -/
theorem songplays_table_is_filtered_join
    (files : List SongFile) (lfiles : List LogFile) (st : Storage) :
    ∃ st' sw spw, runPipeline files lfiles st = some st' ∧
      st'.songs = some sw ∧ st'.songplays = some spw ∧
      sw.rows = songsTable (readSongData files) ∧
      spw.rows = (filterNextSong (readLogData lfiles)).flatMap
        (fun a => (sw.rows.filter (fun b => titleMatch a b)).map (songplayOf a)) ∧
      ∀ a, ((sw.rows.filter (fun b => titleMatch a b)).map (songplayOf a)).length
          = (sw.rows.filter (fun b => titleMatch a b)).length := by
  exact ⟨_, _, _, rfl, rfl, rfl, rfl, rfl, fun a => List.length_map _ _⟩

/-- C4: every row of the songplays table written by the pipeline is derived
from a read event record whose page field equals "NextSong" (joined to some
row of the written songs table); no other event contributes a row. -/
theorem songplays_rows_only_from_nextsong
    (files : List SongFile) (lfiles : List LogFile) (st : Storage) :
    ∃ st' sw spw, runPipeline files lfiles st = some st' ∧
      st'.songs = some sw ∧ st'.songplays = some spw ∧
      spw.rows.Forall (fun row =>
        ∃ e, e ∈ readLogData lfiles ∧ e.page = some "NextSong" ∧
          ∃ b, b ∈ sw.rows ∧ titleMatch e b = true ∧ row = songplayOf e b) := by
  refine ⟨_, _, _, rfl, rfl, rfl, ?_⟩
  rw [List.forall_iff_forall_mem]
  intro row hrow
  unfold songplaysRows at hrow
  rw [List.mem_flatMap] at hrow
  obtain ⟨e, he, hrow⟩ := hrow
  rw [List.mem_map] at hrow
  obtain ⟨b, hb, rfl⟩ := hrow
  rw [List.mem_filter] at hb
  unfold filterNextSong at he
  rw [List.mem_filter] at he
  exact ⟨e, he.1, by simpa using he.2, b, hb.1, hb.2, rfl⟩

/-- C8: running the pipeline produces a storage that is a fixed point — a
second run over the same unchanged inputs rewrites identical contents for
all five tables (indeed the result is the same from any starting storage),
because every one of the five table writes is a full overwrite. -/
theorem pipeline_rerun_idempotent_overwrites
    (files : List SongFile) (lfiles : List LogFile) (st : Storage) :
    ∃ st₁, runPipeline files lfiles st = some st₁ ∧
      runPipeline files lfiles st₁ = some st₁ ∧
      (∀ st₀, runPipeline files lfiles st₀ = some st₁) ∧
      ∃ ws wa wu wt wp,
        st₁.songs = some ws ∧ st₁.artists = some wa ∧ st₁.users = some wu ∧
        st₁.time = some wt ∧ st₁.songplays = some wp ∧
        ws.mode = "overwrite" ∧ wa.mode = "overwrite" ∧
        wu.mode = "overwrite" ∧ wt.mode = "overwrite" ∧
        wp.mode = "overwrite" := by
  exact ⟨_, rfl, rfl, fun st₀ => rfl,
    _, _, _, _, _, rfl, rfl, rfl, rfl, rfl, rfl, rfl, rfl, rfl, rfl⟩

/-- C9: a failing stage makes the whole run abort with an error while every
table written before the failing stage keeps its written contents and no
later table is touched: a song-read failure leaves the storage untouched; a
log-read failure keeps the songs and artists writes and leaves users, time
and songplays at their prior state; when nothing fails the run reports no
error. -/
theorem stage_failure_aborts_keeping_earlier_writes
    (files : List SongFile) (lfiles : List LogFile) (st : Storage) :
    ((runPipelineF none (some lfiles) st).1 = st ∧
      (runPipelineF none (some lfiles) st).2.isSome = true) ∧
    ((runPipelineF none none st).1 = st ∧
      (runPipelineF none none st).2.isSome = true) ∧
    ((runPipelineF (some files) none st).2.isSome = true ∧
      (runPipelineF (some files) none st).1 = process_song_data files st ∧
      (runPipelineF (some files) none st).1.songs
        = (process_song_data files st).songs ∧
      (runPipelineF (some files) none st).1.artists
        = (process_song_data files st).artists ∧
      (runPipelineF (some files) none st).1.users = st.users ∧
      (runPipelineF (some files) none st).1.time = st.time ∧
      (runPipelineF (some files) none st).1.songplays = st.songplays) ∧
    (runPipelineF (some files) (some lfiles) st).2 = none := by
  exact ⟨⟨rfl, rfl⟩, ⟨rfl, rfl⟩, ⟨rfl, rfl, rfl, rfl, rfl, rfl, rfl⟩, rfl⟩

/-- C10: the song stage reads only files matching `song-data/A/A/A/*.json`:
its outputs are unchanged when non-matching files are dropped, every row of
the written songs and artists tables traces back to a record of a matching
file, and every songplays row joins to a song row that came from a matching
file — records stored elsewhere contribute nothing. -/
theorem song_stage_reads_only_AAA_glob
    (files : List SongFile) (lfiles : List LogFile) (st : Storage) :
    readSongData files
      = readSongData (files.filter (fun f => songDataGlobMatch f.path)) ∧
    process_song_data files st
      = process_song_data (files.filter (fun f => songDataGlobMatch f.path)) st ∧
    (∃ w, (process_song_data files st).songs = some w ∧
      w.rows.Forall (fun t => ∃ f, f ∈ files ∧ songDataGlobMatch f.path = true ∧
        ∃ r, r ∈ f.records ∧ r.song_id ≠ none ∧ projSongRow r = t)) ∧
    (∃ w, (process_song_data files st).artists = some w ∧
      w.rows.Forall (fun t => ∃ f, f ∈ files ∧ songDataGlobMatch f.path = true ∧
        ∃ r, r ∈ f.records ∧ r.artist_id ≠ none ∧ projArtistRow r = t)) ∧
    (∃ st' spw, runPipeline files lfiles st = some st' ∧
      st'.songplays = some spw ∧
      spw.rows.Forall (fun row =>
        ∃ f, f ∈ files ∧ songDataGlobMatch f.path = true ∧
          ∃ r e, r ∈ f.records ∧ r.song_id ≠ none ∧
            row = songplayOf e (projSongRow r))) := by
  refine ⟨(readSongData_filter_glob files).symm, ?_, ?_, ?_, ?_⟩
  · simp only [process_song_data, readSongData_filter_glob]
  · refine ⟨_, rfl, ?_⟩
    rw [List.forall_iff_forall_mem]
    intro t ht
    unfold songsTable at ht
    rw [List.mem_dedup, List.mem_map] at ht
    obtain ⟨r, hr, rfl⟩ := ht
    rw [List.mem_filter] at hr
    obtain ⟨f, hf, hglob, hrf⟩ := (mem_readSongData files r).mp hr.1
    exact ⟨f, hf, hglob, r, hrf,
      by simpa [Option.isSome_iff_ne_none] using hr.2, rfl⟩
  · refine ⟨_, rfl, ?_⟩
    rw [List.forall_iff_forall_mem]
    intro t ht
    unfold artistsTable at ht
    rw [List.mem_dedup, List.mem_map] at ht
    obtain ⟨r, hr, rfl⟩ := ht
    rw [List.mem_filter] at hr
    obtain ⟨f, hf, hglob, hrf⟩ := (mem_readSongData files r).mp hr.1
    exact ⟨f, hf, hglob, r, hrf,
      by simpa [Option.isSome_iff_ne_none] using hr.2, rfl⟩
  · refine ⟨_, _, rfl, rfl, ?_⟩
    rw [List.forall_iff_forall_mem]
    intro row hrow
    unfold songplaysRows at hrow
    rw [List.mem_flatMap] at hrow
    obtain ⟨e, _he, hrow⟩ := hrow
    rw [List.mem_map] at hrow
    obtain ⟨b, hb, rfl⟩ := hrow
    rw [List.mem_filter] at hb
    have hb1 := hb.1
    unfold songsTable at hb1
    rw [List.mem_dedup, List.mem_map] at hb1
    obtain ⟨r, hr, rfl⟩ := hb1
    rw [List.mem_filter] at hr
    obtain ⟨f, hf, hglob, hrf⟩ := (mem_readSongData files r).mp hr.1
    exact ⟨f, hf, hglob, r, e, hrf,
      by simpa [Option.isSome_iff_ne_none] using hr.2, rfl⟩

/-- C7 (amended): the timestamp-derivation path divides the epoch-millisecond
`ts` by 1000 once in each of two separate derived columns — `timestamp`
(`int(int(x)/1000)`) and `datetime` (`fromtimestamp(int(x)/1000.0)`) — both
applied to the original `ts`, and downstream start_time/year/month values are
functions of the once-divided value; neither column (hence no downstream
value built from them) holds the twice-divided quantity `ts / 1000 / 1000`. -/
theorem ts_derivation_two_parallel_single_divisions
    (ts : Nat) (e : EventRecord) (b : SongRow) (h : 1000000 ≤ ts) :
    get_timestamp ts ≠ ts / 1000 / 1000 ∧
    (get_datetime ts).1 ≠ ts / 1000 / 1000 ∧
    get_timestamp ts = ts / 1000 ∧
    (get_datetime ts).1 = ts / 1000 ∧
    (get_datetime ts).2 = ts % 1000 ∧
    (timeRowOf e).start_time = get_timestamp e.ts ∧
    (songplayOf e b).start_time = get_timestamp e.ts ∧
    (songplayOf e b).year = yearOfEpoch (get_timestamp e.ts) ∧
    (songplayOf e b).month = monthOfEpoch (get_timestamp e.ts) := by
  have h1 : 1000 ≤ ts / 1000 := (Nat.le_div_iff_mul_le (by norm_num)).mpr (by omega)
  have h2 : ts / 1000 / 1000 < ts / 1000 := Nat.div_lt_self (by omega) (by norm_num)
  exact ⟨h2.ne', h2.ne', rfl, rfl, rfl, rfl, rfl, rfl, rfl⟩

/-- Witness for `ts_derivation_two_parallel_single_divisions` at the concrete
epoch-millisecond value 1543537327796. -/
theorem ts_derivation_two_parallel_single_divisions_witness :
    1000000 ≤ 1543537327796 ∧
    get_timestamp 1543537327796 ≠ 1543537327796 / 1000 / 1000 :=
  ⟨by norm_num,
    (ts_derivation_two_parallel_single_divisions 1543537327796 c7_event c7_song
      (by norm_num)).1⟩

/-- C7 (counterexample): at `ts = 1543537327796` every ts-derived column of
the model — the `timestamp` column, the `datetime` column, and the
start_time carried into the time and songplays rows — equals the
once-divided value `ts / 1000` (or its millisecond remainder), and none of
them is the twice-divided value `ts / 1000 / 1000`: the claimed nested
double division does not occur. -/
theorem ts_derivation_nested_division_counterexample :
    get_timestamp 1543537327796 = 1543537327796 / 1000 ∧
    (get_datetime 1543537327796).1 = 1543537327796 / 1000 ∧
    (timeRowOf c7_event).start_time = 1543537327796 / 1000 ∧
    (songplayOf c7_event c7_song).start_time = 1543537327796 / 1000 ∧
    ¬ (get_timestamp 1543537327796 = 1543537327796 / 1000 / 1000 ∨
       (get_datetime 1543537327796).1 = 1543537327796 / 1000 / 1000 ∨
       (get_datetime 1543537327796).2 = 1543537327796 / 1000 / 1000 ∨
       (timeRowOf c7_event).start_time = 1543537327796 / 1000 / 1000 ∨
       (songplayOf c7_event c7_song).start_time
         = 1543537327796 / 1000 / 1000) := by
  decide

end Etl
